import Mathlib

/-!
Verification development for the streaming inference gateway of the
AI-Talent-Profilling repository (apps/llm-api).

The definitions below are shallow embeddings of the Python source:
  - apps/llm-api/app_ollama.py     (Ollama backend gateway)
  - apps/llm-api/app_onnx.py       (ONNX Runtime backend gateway)
  - apps/llm-api/app_onnx_genai.py (ONNX GenAI backend gateway)

Python floats are modelled as rationals, machine integers as Nat/Int,
optional JSON fields as Option, and the SSE event generators as pure
functions from an abstract backend trace (the parsed lines delivered by
the backend, plus how the connection ended) and an abstract clock (the
value returned by the n-th call to time.time()) to the list of events
the generator yields before it returns or the pending exception escapes.
-/

/-- Message role, the Literal["system","user","assistant"] of the apps. -/
inductive Role where
  | system
  | user
  | assistant
deriving DecidableEq, Repr

/-- Python str.upper() applied to the three role literals. -/
def Role.upper : Role → String
  | Role.system => "SYSTEM"
  | Role.user => "USER"
  | Role.assistant => "ASSISTANT"

/-- Chat message (class Message of all three apps). -/
structure ChatMessage where
  role : Role
  content : String
deriving DecidableEq, Repr

/-- Chat request body (class ChatRequest of all three apps): the typed
fields shared by the three pydantic models.  Field constraints differ per
app and are modelled separately by the per-app validity predicates. -/
structure ChatRequest where
  model : String
  messages : List ChatMessage
  temperature : ℚ
  max_tokens : Option ℤ
deriving DecidableEq, Repr

/-- Pydantic field constraints of app_ollama.py ChatRequest
(lines 110-134): messages min_length=1, temperature ge=0 le=2,
max_tokens ge=1 or None.  FastAPI checks these before the handler runs. -/
def ollamaRequestValid (r : ChatRequest) : Bool :=
  decide (1 ≤ r.messages.length) &&
  decide (0 ≤ r.temperature) && decide (r.temperature ≤ 2) &&
  (match r.max_tokens with
   | none => true
   | some n => decide (1 ≤ n))

/-- Pydantic field constraints of app_onnx_genai.py ChatRequest
(lines 44-68): identical bounds to the Ollama app. -/
def genaiRequestValid (r : ChatRequest) : Bool :=
  decide (1 ≤ r.messages.length) &&
  decide (0 ≤ r.temperature) && decide (r.temperature ≤ 2) &&
  (match r.max_tokens with
   | none => true
   | some n => decide (1 ≤ n))

/-- Pydantic field constraints of app_onnx.py ChatRequest (lines 40-48):
the model declares plain types only — no min_length on messages, no
bounds on temperature, no positivity on max_tokens — so every typed body
passes validation. -/
def onnxRequestValid (_ : ChatRequest) : Bool :=
  true

/-- Python str.strip() with no argument: remove leading and trailing
whitespace (implemented structurally over the character list so that
concrete instances evaluate inside the kernel). -/
def pyStrip (s : String) : String :=
  ⟨((s.data.dropWhile Char.isWhitespace).reverse.dropWhile Char.isWhitespace).reverse⟩

/-- The newline-join of the contents of the system messages, in order:
the expression "\n".join([m.content for m in messages if m.role=="system"]). -/
def systemJoin (messages : List ChatMessage) : String :=
  String.intercalate "\n"
    ((messages.filter (fun m =>
        match m.role with
        | Role.system => true
        | _ => false)).map (fun m => m.content))

/-- The newline-join of the non-system messages rendered as
"ROLE: content" lines, in order: the expression
"\n".join([f"ROLE: content" for m in messages if m.role!="system"]). -/
def historyJoin (messages : List ChatMessage) : String :=
  String.intercalate "\n"
    ((messages.filter (fun m =>
        match m.role with
        | Role.system => false
        | _ => true)).map (fun m => m.role.upper ++ ": " ++ m.content))

namespace Ollama

/-- Prompt construction inlined in app_ollama.py chat and chat_stream
(lines 248-251 and 344-346): (sys + "\n" + history).strip(). -/
def build_prompt (messages : List ChatMessage) : String :=
  pyStrip (systemJoin messages ++ "\n" ++ historyJoin messages)

end Ollama

namespace Onnx

/-- app_onnx.py build_prompt (lines 90-93). -/
def build_prompt (messages : List ChatMessage) : String :=
  pyStrip (systemJoin messages ++ "\n" ++ historyJoin messages)

end Onnx

namespace Genai

/-- app_onnx_genai.py build_prompt (lines 139-142): note the extra
"\nASSISTANT:" suffix appended before the trim. -/
def build_prompt (messages : List ChatMessage) : String :=
  pyStrip (systemJoin messages ++ "\n" ++ historyJoin messages ++ "\nASSISTANT:")

end Genai

/-- Modelled from the spec: the prompt linearization described in section
4.1 and claim C9 — the newline-joined system contents as a preamble, then
each non-system message as an upper-cased "ROLE: content" line, the whole
result trimmed and nothing else appended. -/
def specPrompt (messages : List ChatMessage) : String :=
  pyStrip (systemJoin messages ++ "\n" ++ historyJoin messages)

/-- Python round(x, 2) modelled over the rationals (ties round up;
Python uses banker's rounding on floats, which coincides everywhere off
an exact half-cent, and every value this development rounds is off it). -/
def round2 (q : ℚ) : ℚ :=
  ((round (q * 100) : ℤ) : ℚ) / 100

/-- Python round(x, 4) modelled over the rationals (same convention). -/
def round4 (q : ℚ) : ℚ :=
  ((round (q * 10000) : ℤ) : ℚ) / 10000

/-- The serialization idiom round(x, 2) if x else None of the apps:
a missing or zero (Python-falsy) value serializes as None. -/
def truthyRound2 : Option ℚ → Option ℚ
  | none => none
  | some q => if q = 0 then none else some (round2 q)

/-- The serialization idiom round(x, 4) if x else None of the apps. -/
def truthyRound4 : Option ℚ → Option ℚ
  | none => none
  | some q => if q = 0 then none else some (round4 q)

/-- Serialized performance metrics (class PerformanceMetrics of the apps,
and the metrics object of the final SSE event): optional fields are None
exactly when the Python code serializes null. -/
structure PerformanceMetrics where
  ttft : Option ℚ
  total_latency : ℚ
  tokens_per_second : Option ℚ
  output_tokens_per_second : Option ℚ
  input_tokens : Option ℕ
  output_tokens : Option ℕ
  tpot : Option ℚ
  model : String
deriving DecidableEq, Repr

/-- The tokens_per_second computation, identical in app_ollama.py lines
278-281 (chat) and 392-395 (event_gen):
tokens_per_second = None; if total_latency > 0: total_tokens = pec + ec;
if total_tokens > 0: tokens_per_second = total_tokens / total_latency. -/
def computeTPS (total_latency : ℚ) (prompt_eval_count eval_count : ℕ) : Option ℚ :=
  if 0 < total_latency then
    let total_tokens : ℚ := (prompt_eval_count : ℚ) + (eval_count : ℚ)
    if 0 < total_tokens then some (total_tokens / total_latency) else none
  else none

/-- Error kinds of the spec's error taxonomy (section 7).  The gateway
sources never construct any of these values in the streaming path; the
alphabet is needed to state the claims about Failed events. -/
inductive ErrorKind where
  | InvalidRequest
  | BackendUnreachable
  | BackendError
  | StreamInterrupted
deriving DecidableEq, Repr

/-- Canonical event alphabet emitted to the caller over SSE.  The token
and doneEvent constructors carry exactly what the source serializes: a
text fragment, or done:true with the literal token "[DONE]" and the
metrics object.  failedEvent is Modelled from the spec: the Failed
variant of StreamOutcome (section 3); no generator in src constructs it. -/
inductive StreamEvent where
  | token (text : String)
  | doneEvent (tokenField : String) (metrics : PerformanceMetrics)
  | failedEvent (kind : ErrorKind) (message : String)
deriving DecidableEq, Repr

/-- A terminal event in the sense of the spec: Done or Failed. -/
def StreamEvent.isTerminal : StreamEvent → Bool
  | StreamEvent.token _ => false
  | StreamEvent.doneEvent _ _ => true
  | StreamEvent.failedEvent _ _ => true

/-- A Failed event. -/
def StreamEvent.isFailed : StreamEvent → Bool
  | StreamEvent.failedEvent _ _ => true
  | _ => false

/-- Concatenation of the text fragments of the Token events of a
sequence, in order. -/
def tokenConcat : List StreamEvent → String
  | [] => ""
  | StreamEvent.token t :: rest => t ++ tokenConcat rest
  | _ :: rest => tokenConcat rest

/-- Concatenation of a list of strings, in order. -/
def strConcat : List String → String
  | [] => ""
  | s :: rest => s ++ strConcat rest

/-- Whether an event is a Done event whose token field is the literal
"[DONE]" (vacuously true of non-Done events). -/
def doneFieldIsDONE : StreamEvent → Bool
  | StreamEvent.doneEvent s _ => s == "[DONE]"
  | _ => true

/-- The text of a Token event, none for the other events. -/
def eventTokenText : StreamEvent → Option String
  | StreamEvent.token t => some t
  | _ => none

/-- The token field of a Done event, none for the other events. -/
def eventDoneField : StreamEvent → Option String
  | StreamEvent.doneEvent s _ => some s
  | _ => none

/-- The serialized output_tokens field of a Done event's metrics, none
for the other events. -/
def eventOutputTokens : StreamEvent → Option (Option ℕ)
  | StreamEvent.doneEvent _ m => some m.output_tokens
  | _ => none

namespace Ollama

/-- One parsed line of the Ollama streaming response, as seen by the
loop of event_gen (app_ollama.py lines 369-435): blank lines and
JSON-decode failures are skipped; an object with a truthy done field is
the final marker carrying optional prompt_eval_count / eval_count; any
other object is a content chunk whose response field defaults to "". -/
inductive RawLine where
  | blank
  | malformed
  | chunk (response : String)
  | doneMarker (prompt_eval_count eval_count : Option ℕ)
deriving DecidableEq, Repr

/-- Whether a line is the done marker. -/
def RawLine.isDone : RawLine → Bool
  | RawLine.doneMarker _ _ => true
  | _ => false

/-- How the backend connection ended: closed normally after the
delivered lines, or raised a connection error (connection refused,
non-success status, or a mid-stream drop) once the delivered lines were
consumed. -/
inductive TraceEnd where
  | closed
  | connError
deriving DecidableEq, Repr

/-- A backend trace: the parsed lines the connection delivered, and how
it ended.  A refused connection is the trace with no lines ending in
connError. -/
structure Trace where
  lines : List RawLine
  ending : TraceEnd
deriving DecidableEq, Repr

/-- The mutable locals of event_gen (app_ollama.py lines 360-364)
together with the index of the next time.time() call: ttft,
first_token_received, token_count; prompt_eval_count stays 0 until the
done marker and needs no field. -/
structure GenState where
  ttft : Option ℚ
  firstTokenReceived : Bool
  tokenCount : ℕ
  clockIdx : ℕ
deriving DecidableEq, Repr

/-- Initial state of event_gen: start_time has consumed clock call 0. -/
def initState : GenState :=
  { ttft := none, firstTokenReceived := false, tokenCount := 0, clockIdx := 1 }

/-- The final-metrics construction of event_gen (app_ollama.py lines
379-413), from the measured total latency, the recorded ttft, and the
token counts chosen at the done marker. -/
def streamFinalMetrics (modelName : String) (total_latency : ℚ) (ttft : Option ℚ)
    (prompt_eval_count eval_count : ℕ) : PerformanceMetrics :=
  let tokens_per_second := computeTPS total_latency prompt_eval_count eval_count
  let otpsTpot : Option ℚ × Option ℚ :=
    if 0 < total_latency then
      if 0 < eval_count then
        let generation_time := total_latency - ttft.getD 0
        if 0 < generation_time then
          (some ((eval_count : ℚ) / generation_time),
           some (generation_time / (eval_count : ℚ)))
        else (none, none)
      else (none, none)
    else (none, none)
  { ttft := truthyRound4 ttft
    total_latency := round4 total_latency
    tokens_per_second := truthyRound2 tokens_per_second
    output_tokens_per_second := truthyRound2 otpsTpot.1
    input_tokens := if 0 < prompt_eval_count then some prompt_eval_count else none
    output_tokens := if 0 < eval_count then some eval_count else none
    tpot := truthyRound4 otpsTpot.2
    model := modelName }

/-- The line loop of event_gen (app_ollama.py lines 369-435): blank and
malformed lines are skipped; the first done marker computes the metrics,
yields the final event and breaks; a non-empty content chunk records
ttft on the first fragment, increments token_count and yields a Token
event; an empty chunk is skipped.  If the lines run out without a done
marker the loop simply ends. -/
def event_genLoop (clock : ℕ → ℚ) (modelName : String) (startTime : ℚ) :
    List RawLine → GenState → List StreamEvent
  | [], _ => []
  | RawLine.blank :: rest, s => event_genLoop clock modelName startTime rest s
  | RawLine.malformed :: rest, s => event_genLoop clock modelName startTime rest s
  | RawLine.doneMarker pec ec :: _, s =>
      let endTime := clock s.clockIdx
      let total_latency := endTime - startTime
      let prompt_eval_count := pec.getD 0
      let eval_count := ec.getD s.tokenCount
      [StreamEvent.doneEvent "[DONE]"
        (streamFinalMetrics modelName total_latency s.ttft prompt_eval_count eval_count)]
  | RawLine.chunk t :: rest, s =>
      if t = "" then event_genLoop clock modelName startTime rest s
      else
        let s1 :=
          if s.firstTokenReceived then s
          else
            { ttft := some (clock s.clockIdx - startTime)
              firstTokenReceived := true
              tokenCount := s.tokenCount
              clockIdx := s.clockIdx + 1 }
        let s2 := { s1 with tokenCount := s1.tokenCount + 1 }
        StreamEvent.token t :: event_genLoop clock modelName startTime rest s2

/-- Whether the delivered lines contain a done marker (in which case the
loop breaks before the connection ending is ever observed). -/
def hasDoneLine : List RawLine → Bool
  | [] => false
  | RawLine.doneMarker _ _ :: _ => true
  | _ :: rest => hasDoneLine rest

/-- The whole streaming generator of app_ollama.py (lines 358-435) on a
backend trace: the events yielded to the caller, paired with whether an
exception escapes the generator (which closes the SSE stream with no
further event).  An exception escapes exactly when the connection ended
in an error and no done marker broke the loop first. -/
def event_gen (clock : ℕ → ℚ) (modelName : String) (tr : Trace) :
    List StreamEvent × Bool :=
  let startTime := clock 0
  (event_genLoop clock modelName startTime tr.lines initState,
   decide (tr.ending = TraceEnd.connError) && !(hasDoneLine tr.lines))

end Ollama

namespace Ollama

/-- Options object of the payload sent to the Ollama daemon: num_predict
is the key that carries the maximum-new-tokens limit; none means the key
is absent from the options dict. -/
structure Options where
  temperature : ℚ
  num_predict : Option ℤ
deriving DecidableEq, Repr

/-- Payload POSTed to the Ollama /api/generate route. -/
structure Payload where
  model : String
  prompt : String
  options : Options
  stream : Bool
deriving DecidableEq, Repr

/-- Payload built by the non-streaming chat handler (app_ollama.py lines
253-258): model, prompt, options with temperature only, stream False.
No max-tokens key is ever added here. -/
def chatPayload (r : ChatRequest) : Payload :=
  { model := r.model
    prompt := build_prompt r.messages
    options := { temperature := r.temperature, num_predict := none }
    stream := false }

/-- Payload built by the streaming chat_stream handler (app_ollama.py
lines 348-356): the options dict spreads in num_predict only when
req.max_tokens is truthy (not None and not 0). -/
def chatStreamPayload (r : ChatRequest) : Payload :=
  { model := r.model
    prompt := build_prompt r.messages
    options :=
      { temperature := r.temperature
        num_predict :=
          match r.max_tokens with
          | none => none
          | some n => if n = 0 then none else some n }
    stream := true }

/-- Backend calls performed by the non-streaming endpoint: FastAPI runs
the pydantic validation of ChatRequest before the handler body, so an
invalid body is rejected with no call, and a valid one performs exactly
the single POST of app_ollama.py line 261. -/
def chatCalls (r : ChatRequest) : List Payload :=
  if ollamaRequestValid r then [chatPayload r] else []

/-- Backend calls performed by the streaming endpoint (single streamed
POST of app_ollama.py line 367 once validation passes). -/
def chatStreamCalls (r : ChatRequest) : List Payload :=
  if ollamaRequestValid r then [chatStreamPayload r] else []

/-- Parsed JSON body of a non-streaming Ollama /api/generate response;
every field the handler reads is optional in the wire format. -/
structure GenData where
  response : Option String
  prompt_eval_count : Option ℕ
  eval_count : Option ℕ
  total_duration : Option ℕ
  prompt_eval_duration : Option ℕ
deriving DecidableEq, Repr

/-- Response of the non-streaming chat endpoint. -/
structure ChatResponse where
  content : String
  metrics : PerformanceMetrics
deriving DecidableEq, Repr

/-- The response and metrics construction of the chat handler
(app_ollama.py lines 263-308) from the parsed backend body and the
wall-clock total latency: token counts default to 0, durations are
nanoseconds scaled to seconds, generation time falls back to the wall
latency when the backend durations are not decreasing, and the content
is the response field defaulting to "". -/
def chatResponse (modelName : String) (data : GenData) (total_latency : ℚ) :
    ChatResponse :=
  let prompt_eval_count := data.prompt_eval_count.getD 0
  let eval_count := data.eval_count.getD 0
  let tokens_per_second := computeTPS total_latency prompt_eval_count eval_count
  let otpsTpot : Option ℚ × Option ℚ :=
    if 0 < total_latency then
      if 0 < eval_count then
        let total_duration_s := ((data.total_duration.getD 0 : ℚ)) / 1000000000
        let prompt_duration_s := ((data.prompt_eval_duration.getD 0 : ℚ)) / 1000000000
        let generation_time :=
          if prompt_duration_s < total_duration_s then
            total_duration_s - prompt_duration_s
          else total_latency
        if 0 < generation_time then
          (some ((eval_count : ℚ) / generation_time),
           some (generation_time / (eval_count : ℚ)))
        else (none, none)
      else (none, none)
    else (none, none)
  { content := (data.response.getD "")
    metrics :=
      { ttft := none
        total_latency := round4 total_latency
        tokens_per_second := truthyRound2 tokens_per_second
        output_tokens_per_second := truthyRound2 otpsTpot.1
        input_tokens := if 0 < prompt_eval_count then some prompt_eval_count else none
        output_tokens := if 0 < eval_count then some eval_count else none
        tpot := truthyRound4 otpsTpot.2
        model := modelName } }

/-- The non-streaming endpoint end to end: pydantic validation first
(rejecting invalid bodies before any backend work), then the handler on
the backend body and the measured latency. -/
def chatEndpoint (r : ChatRequest) (data : GenData) (total_latency : ℚ) :
    Except ErrorKind ChatResponse :=
  if ollamaRequestValid r then Except.ok (chatResponse r.model data total_latency)
  else Except.error ErrorKind.InvalidRequest

end Ollama

/-- Python str.split() with no argument: split on whitespace runs,
dropping empty pieces. -/
def pySplitAux : List Char → List Char → List String
  | [], acc => if acc.isEmpty then [] else [⟨acc.reverse⟩]
  | c :: cs, acc =>
      if c.isWhitespace then
        (if acc.isEmpty then pySplitAux cs [] else ⟨acc.reverse⟩ :: pySplitAux cs [])
      else pySplitAux cs (c :: acc)

def pySplit (s : String) : List String :=
  pySplitAux s.data []

namespace Onnx

/-- One call to model.generate in app_onnx.py, recording the arguments
the handler passes (lines 115-122 and 181-188). -/
structure GenerateCall where
  prompt : String
  do_sample : Bool
  temperature : ℚ
  max_new_tokens : ℤ
deriving DecidableEq, Repr

/-- The max_new_tokens expression req.max_tokens or DEFAULT_MAX_NEW_TOKENS
(app_onnx.py lines 112 and 179): Python-falsy max_tokens (None or 0)
falls back to the default. -/
def maxNew (defaultMaxNew : ℤ) : Option ℤ → ℤ
  | none => defaultMaxNew
  | some n => if n = 0 then defaultMaxNew else n

/-- The generate calls performed by the non-streaming ONNX chat handler:
validation imposes no constraints, so every typed request reaches the
model and performs exactly one generate call with the arguments of
app_onnx.py lines 115-122. -/
def chatCalls (defaultMaxNew : ℤ) (r : ChatRequest) : List GenerateCall :=
  if onnxRequestValid r then
    [{ prompt := build_prompt r.messages
       do_sample := decide (0 < r.temperature)
       temperature := max r.temperature (1 / 1000000)
       max_new_tokens := maxNew defaultMaxNew r.max_tokens }]
  else []

/-- The simulated-streaming generator of app_onnx.py (lines 200-249):
the precomputed content is split into words, each word is emitted as a
Token event with a trailing space, and the single final event carries
done:true, the literal token "[DONE]" and the metrics.  clock 0 is the
time at the first chunk, clock 1 the end time; startTime was taken by
the surrounding handler before generation. -/
def event_gen (clock : ℕ → ℚ) (modelName : String) (startTime : ℚ)
    (content : String) (input_tokens output_tokens : ℕ) : List StreamEvent :=
  let words := pySplit content
  let tokenEvents := words.map (fun w => StreamEvent.token (w ++ " "))
  let first_chunk_time : Option ℚ := if words.isEmpty then none else some (clock 0)
  let end_time := clock 1
  let total_latency := end_time - startTime
  let ttft : Option ℚ :=
    match first_chunk_time with
    | none => none
    | some t => if t = 0 then none else some (t - startTime)
  let tokens_per_second := computeTPS total_latency input_tokens output_tokens
  let otpsTpot : Option ℚ × Option ℚ :=
    if 0 < total_latency then
      if 0 < output_tokens then
        let gen_time := total_latency - ttft.getD 0
        if 0 < gen_time then
          (some ((output_tokens : ℚ) / gen_time),
           some (gen_time / (output_tokens : ℚ)))
        else (none, none)
      else (none, none)
    else (none, none)
  tokenEvents ++
    [StreamEvent.doneEvent "[DONE]"
      { ttft := truthyRound4 ttft
        total_latency := round4 total_latency
        tokens_per_second := truthyRound2 tokens_per_second
        output_tokens_per_second := truthyRound2 otpsTpot.1
        input_tokens := some input_tokens
        output_tokens := some output_tokens
        tpot := truthyRound4 otpsTpot.2
        model := if modelName = "" then "onnx-local" else modelName }]

end Onnx

namespace Ollama

/-- Concatenation of the response texts of the content chunks a trace
delivers before its first done marker (the fragments the loop forwards;
empty fragments contribute nothing to the concatenation either way). -/
def chunksConcatBeforeDone : List RawLine → String
  | [] => ""
  | RawLine.doneMarker _ _ :: _ => ""
  | RawLine.chunk t :: rest => t ++ chunksConcatBeforeDone rest
  | RawLine.blank :: rest => chunksConcatBeforeDone rest
  | RawLine.malformed :: rest => chunksConcatBeforeDone rest

/-- Number of non-empty content chunks in a line list: the value the
local token_count counter reaches after consuming those lines. -/
def nonemptyChunkCount : List RawLine → ℕ
  | [] => 0
  | RawLine.chunk t :: rest => (if t = "" then 0 else 1) + nonemptyChunkCount rest
  | _ :: rest => nonemptyChunkCount rest

/-- The loop forwards exactly the chunk texts that precede the first
done marker: the concatenation of the Token texts it emits equals the
concatenation of those chunk texts, from any starting state. -/
theorem event_genLoop_tokenConcat (clock : ℕ → ℚ) (modelName : String)
    (startTime : ℚ) :
    ∀ (lines : List RawLine) (s : GenState),
      tokenConcat (event_genLoop clock modelName startTime lines s)
        = chunksConcatBeforeDone lines := by
  intro lines
  induction lines with
  | nil => intro s; rfl
  | cons l rest ih =>
      intro s
      cases l with
      | blank => simpa [event_genLoop, chunksConcatBeforeDone] using ih s
      | malformed => simpa [event_genLoop, chunksConcatBeforeDone] using ih s
      | doneMarker pec ec => simp [event_genLoop, chunksConcatBeforeDone, tokenConcat]
      | chunk t =>
          by_cases ht : t = ""
          · subst ht
            simpa [event_genLoop, chunksConcatBeforeDone, tokenConcat] using ih s
          · simp only [event_genLoop, chunksConcatBeforeDone, if_neg ht]
            rw [show tokenConcat (StreamEvent.token t :: _) = t ++ _ from rfl]
            rw [ih]

/-- Every Token event the loop emits carries a non-empty fragment, and
every Done event it emits carries the literal token "[DONE]". -/
theorem event_genLoop_all (clock : ℕ → ℚ) (modelName : String) (startTime : ℚ) :
    ∀ (lines : List RawLine) (s : GenState),
      ((event_genLoop clock modelName startTime lines s).all (fun e =>
        (match e with
         | StreamEvent.token t => !(t = "")
         | _ => true) && doneFieldIsDONE e)) = true := by
  intro lines
  induction lines with
  | nil => intro s; rfl
  | cons l rest ih =>
      intro s
      cases l with
      | blank => simpa [event_genLoop] using ih s
      | malformed => simpa [event_genLoop] using ih s
      | doneMarker pec ec => simp [event_genLoop, doneFieldIsDONE]
      | chunk t =>
          by_cases ht : t = ""
          · subst ht
            simpa [event_genLoop] using ih s
          · simp only [event_genLoop, if_neg ht, List.all_cons, Bool.and_eq_true]
            refine And.intro ?_ ?_
            · simp [doneFieldIsDONE, ht]
            · exact ih _

end Ollama

namespace Ollama

/-- Reaching the first done marker: when the lines before the marker
contain no done marker of their own, the loop emits a run of Token
events followed by the single final event, whose output_tokens field is
the backend-reported eval_count when present — without any agreement
check against the local counter — and the local counter (the running
token count plus the non-empty chunks consumed) only when it is absent;
the count then passes the strictly-positive serialization guard. -/
theorem event_genLoop_done (clock : ℕ → ℚ) (modelName : String)
    (startTime : ℚ) (pec ec : Option ℕ) (rest : List RawLine) :
    ∀ (pre : List RawLine) (s : GenState),
      (∀ l ∈ pre, l.isDone = false) →
      ∃ (toks : List String) (m : PerformanceMetrics),
        event_genLoop clock modelName startTime
            (pre ++ RawLine.doneMarker pec ec :: rest) s
          = toks.map StreamEvent.token ++ [StreamEvent.doneEvent "[DONE]" m]
        ∧ m.output_tokens =
            (let used := ec.getD (s.tokenCount + nonemptyChunkCount pre)
             if 0 < used then some used else none) := by
  intro pre
  induction pre with
  | nil =>
      intro s _
      refine ⟨[], streamFinalMetrics modelName (clock s.clockIdx - startTime)
        s.ttft (pec.getD 0) (ec.getD s.tokenCount), ?_, ?_⟩
      · simp [event_genLoop]
      · simp [streamFinalMetrics, nonemptyChunkCount]
  | cons l pre' ih =>
      intro s hpre
      have hpre' : ∀ l ∈ pre', l.isDone = false := by
        intro x hx; exact hpre x (List.mem_cons_of_mem _ hx)
      cases l with
      | blank =>
          obtain ⟨toks, m, hev, hout⟩ := ih s hpre'
          exact ⟨toks, m, by simpa [event_genLoop] using hev,
            by simpa [nonemptyChunkCount] using hout⟩
      | malformed =>
          obtain ⟨toks, m, hev, hout⟩ := ih s hpre'
          exact ⟨toks, m, by simpa [event_genLoop] using hev,
            by simpa [nonemptyChunkCount] using hout⟩
      | doneMarker a b =>
          have := hpre (RawLine.doneMarker a b) (List.mem_cons_self _ _)
          simp [RawLine.isDone] at this
      | chunk t =>
          by_cases ht : t = ""
          · subst ht
            obtain ⟨toks, m, hev, hout⟩ := ih s hpre'
            refine ⟨toks, m, ?_, ?_⟩
            · simpa [event_genLoop] using hev
            · simpa [nonemptyChunkCount] using hout
          · set s1 := if s.firstTokenReceived then s
              else { ttft := some (clock s.clockIdx - startTime)
                     firstTokenReceived := true
                     tokenCount := s.tokenCount
                     clockIdx := s.clockIdx + 1 } with hs1
            have hs1count : s1.tokenCount = s.tokenCount := by
              by_cases hf : s.firstTokenReceived
              · simp [hs1, hf]
              · simp [hs1, hf]
            obtain ⟨toks, m, hev, hout⟩ :=
              ih { s1 with tokenCount := s1.tokenCount + 1 } hpre'
            refine ⟨t :: toks, m, ?_, ?_⟩
            · simp only [List.cons_append, event_genLoop, if_neg ht, List.map_cons]
              exact congrArg (StreamEvent.token t :: ·) hev
            · rw [hout]
              simp only [hs1count, nonemptyChunkCount, if_neg ht]
              have : s.tokenCount + 1 + nonemptyChunkCount pre'
                  = s.tokenCount + (1 + nonemptyChunkCount pre') := by omega
              simp [this]

end Ollama

/-- Concatenating the Token texts of a run of Token events followed by
one Done event yields the concatenation of the fragments. -/
theorem tokenConcat_map_token_done (l : List String) (s : String)
    (m : PerformanceMetrics) :
    tokenConcat (l.map StreamEvent.token ++ [StreamEvent.doneEvent s m])
      = strConcat l := by
  induction l with
  | nil => rfl
  | cons w ws ih =>
      simp only [List.map_cons, List.cons_append]
      rw [show tokenConcat (StreamEvent.token w ::
            (ws.map StreamEvent.token ++ [StreamEvent.doneEvent s m]))
          = w ++ tokenConcat (ws.map StreamEvent.token
              ++ [StreamEvent.doneEvent s m]) from rfl]
      rw [ih]
      rfl

/-!
Claim theorems.  Each theorem below settles one claim of the
specification against the embedded source.
-/

/-- C1: the claim says every streaming request's event sequence is a
finite run of Token events followed by exactly one terminal event (Done
or Failed), with nothing after it.  The code violates this: when the
backend connection drops after delivering one content fragment, the
generator emits the Token event and then the connection error escapes
it, so the sequence delivered to the caller contains no terminal event
at all — the failing evaluation below shows the emitted sequence is a
single Token event with the exception escaping (silent close). -/
theorem c1_no_terminal_on_backend_drop :
    Ollama.event_gen (fun _ => 0) "m"
        { lines := [Ollama.RawLine.chunk "Hel"], ending := Ollama.TraceEnd.connError }
      = ([StreamEvent.token "Hel"], true)
    ∧ (([StreamEvent.token "Hel"] : List StreamEvent).all
        (fun e => !(e.isTerminal))) = true := by
  exact ⟨by decide, by decide⟩

/-- C2: the claim says a backend connection failure still yields exactly
one terminal Failed event (kind BackendUnreachable on connection
refusal), never a silent close.  The code violates this: event_gen has
no error handling, so on a refused connection the httpx error escapes
the generator and the SSE stream closes with zero events — zero Token
events as claimed, but also zero Failed events. -/
theorem c2_silent_close_on_connection_refused :
    Ollama.event_gen (fun _ => 0) "m"
        { lines := [], ending := Ollama.TraceEnd.connError }
      = ([], true)
    ∧ (([] : List StreamEvent).countP (fun e => e.isFailed)) = 0 := by
  exact ⟨by decide, rfl⟩

/-- C3 counterexample: a request with empty messages, temperature 5
(outside [0,2]) and max_tokens 0 is accepted by the ONNX app — its
ChatRequest declares no field constraints — and the handler proceeds to
exactly one model.generate call, with the falsy max_tokens silently
replaced by the default limit; the claim says every app rejects it as
InvalidRequest with zero backend calls. -/
theorem c3_counterexample :
    onnxRequestValid
        { model := "m", messages := [], temperature := 5, max_tokens := some 0 }
      = true
    ∧ (Onnx.chatCalls 512
        { model := "m", messages := [], temperature := 5, max_tokens := some 0 }).length
      = 1
    ∧ (Onnx.chatCalls 512
        { model := "m", messages := [], temperature := 5, max_tokens := some 0 }).map
          (fun c => c.max_new_tokens)
      = [512] := by
  refine ⟨rfl, rfl, ?_⟩
  simp [Onnx.chatCalls, Onnx.maxNew, onnxRequestValid]

/-- C3 amended: requests with an empty message list, temperature outside
[0,2], or non-positive max_tokens are rejected by pydantic validation
before any backend call in the Ollama and ONNX-GenAI apps (both
endpoints, zero backend calls, InvalidRequest surfaced); the plain ONNX
app imposes no such constraints and proceeds to its single generate
call. -/
theorem c3_validation_amended (r : ChatRequest) (defaultMaxNew : ℤ)
    (data : Ollama.GenData) (total_latency : ℚ)
    (h : r.messages = [] ∨ r.temperature < 0 ∨ 2 < r.temperature ∨
         (∃ n, r.max_tokens = some n ∧ n ≤ 0)) :
    ollamaRequestValid r = false
    ∧ genaiRequestValid r = false
    ∧ Ollama.chatCalls r = []
    ∧ Ollama.chatStreamCalls r = []
    ∧ Ollama.chatEndpoint r data total_latency = Except.error ErrorKind.InvalidRequest
    ∧ (Onnx.chatCalls defaultMaxNew r).length = 1 := by
  have hval : ollamaRequestValid r = false := by
    rcases h with h | h | h | ⟨n, hn, hle⟩
    · simp [ollamaRequestValid, h]
    · simp [ollamaRequestValid, not_le.mpr h]
    · simp [ollamaRequestValid, not_le.mpr h]
    · have : ¬ (1 ≤ n) := by omega
      simp [ollamaRequestValid, hn, this]
  have hval' : genaiRequestValid r = false := by
    rcases h with h | h | h | ⟨n, hn, hle⟩
    · simp [genaiRequestValid, h]
    · simp [genaiRequestValid, not_le.mpr h]
    · simp [genaiRequestValid, not_le.mpr h]
    · have : ¬ (1 ≤ n) := by omega
      simp [genaiRequestValid, hn, this]
  refine ⟨hval, hval', ?_, ?_, ?_, ?_⟩
  · simp [Ollama.chatCalls, hval]
  · simp [Ollama.chatStreamCalls, hval]
  · simp [Ollama.chatEndpoint, hval]
  · simp [Onnx.chatCalls, onnxRequestValid]

/-- C3 amended witness: scenario C's request (max_tokens = 0, otherwise
well formed) instantiates the amended claim. -/
theorem c3_validation_amended_witness :
    ollamaRequestValid
        { model := "m", messages := [{ role := Role.user, content := "Hi" }],
          temperature := 1/5, max_tokens := some 0 }
      = false
    ∧ genaiRequestValid
        { model := "m", messages := [{ role := Role.user, content := "Hi" }],
          temperature := 1/5, max_tokens := some 0 }
      = false
    ∧ Ollama.chatCalls
        { model := "m", messages := [{ role := Role.user, content := "Hi" }],
          temperature := 1/5, max_tokens := some 0 }
      = []
    ∧ Ollama.chatStreamCalls
        { model := "m", messages := [{ role := Role.user, content := "Hi" }],
          temperature := 1/5, max_tokens := some 0 }
      = []
    ∧ Ollama.chatEndpoint
        { model := "m", messages := [{ role := Role.user, content := "Hi" }],
          temperature := 1/5, max_tokens := some 0 }
        { response := none, prompt_eval_count := none, eval_count := none,
          total_duration := none, prompt_eval_duration := none } 1
      = Except.error ErrorKind.InvalidRequest
    ∧ (Onnx.chatCalls 512
        { model := "m", messages := [{ role := Role.user, content := "Hi" }],
          temperature := 1/5, max_tokens := some 0 }).length
      = 1 := by
  exact c3_validation_amended _ 512 _ 1
    (Or.inr (Or.inr (Or.inr ⟨0, rfl, le_refl 0⟩)))

/-- C4 counterexample: in the ONNX simulated-streaming path with
generated content "Hello world", the Token events carry "Hello " and
"world " and the terminal event carries done:true with the literal
token "[DONE]" and metrics only — no full-text field.  The
concatenation of the Token texts, "Hello world ", differs both from the
only text the terminal event carries and from the generated content
itself (the word-chunking loses the original whitespace and appends a
trailing space), so it is neither carried in nor reconstructible from
the Done event. -/
theorem c4_counterexample :
    (Onnx.event_gen (fun _ => 0) "m" 0 "Hello world" 3 2).map eventTokenText
      = [some "Hello ", some "world ", none]
    ∧ (Onnx.event_gen (fun _ => 0) "m" 0 "Hello world" 3 2).map eventDoneField
      = [none, none, some "[DONE]"]
    ∧ tokenConcat (Onnx.event_gen (fun _ => 0) "m" 0 "Hello world" 3 2)
      = "Hello world "
    ∧ ("Hello world " : String) ≠ "[DONE]"
    ∧ ("Hello world " : String) ≠ "Hello world" := by
  refine ⟨by decide, by decide, by decide, by decide, by decide⟩

/-- C4 amended: the terminal Done event carries the literal token
"[DONE]" and metrics, not the accumulated text.  What does hold of the
emitted Token run: in the Ollama path its concatenation equals the
concatenation of the backend chunk texts delivered before the done
marker, and in the ONNX simulated path it equals the whitespace-split
words of the generated content each with a trailing space. -/
theorem c4_token_concat_amended :
    (∀ (clock : ℕ → ℚ) (modelName : String) (tr : Ollama.Trace),
      tokenConcat (Ollama.event_gen clock modelName tr).1
        = Ollama.chunksConcatBeforeDone tr.lines)
    ∧ (∀ (clock : ℕ → ℚ) (modelName : String) (startTime : ℚ)
        (content : String) (input_tokens output_tokens : ℕ),
      tokenConcat
          (Onnx.event_gen clock modelName startTime content input_tokens output_tokens)
        = strConcat ((pySplit content).map (fun w => w ++ " ")))
    ∧ (∀ (clock : ℕ → ℚ) (modelName : String) (tr : Ollama.Trace),
      ((Ollama.event_gen clock modelName tr).1.all doneFieldIsDONE) = true) := by
  refine ⟨?_, ?_, ?_⟩
  · intro clock modelName tr
    exact Ollama.event_genLoop_tokenConcat clock modelName (clock 0) tr.lines _
  · intro clock modelName startTime content input_tokens output_tokens
    simp only [Onnx.event_gen]
    rw [show (pySplit content).map (fun w => StreamEvent.token (w ++ " "))
        = ((pySplit content).map (fun w => w ++ " ")).map StreamEvent.token by
      rw [List.map_map]
      rfl]
    rw [tokenConcat_map_token_done]
  · intro clock modelName tr
    have h := Ollama.event_genLoop_all clock modelName (clock 0) tr.lines Ollama.initState
    rw [List.all_eq_true] at h ⊢
    intro e he
    exact Bool.and_elim_right (h e he)

/-- C5: tokens_per_second is computed exactly when total_latency > 0 and
the token sum is positive, in which case the computed value is
(input + output) / total_latency; otherwise the field is None, so no
division by zero is ever performed.  The serialized field of the final
metrics is present under exactly the same guard (the computed value is
strictly positive, so the Python-falsiness check at serialization never
drops it), carrying the presentation-rounded value. -/
theorem c5_tps_guard (modelName : String) (total_latency : ℚ) (ttft : Option ℚ)
    (prompt_eval_count eval_count : ℕ) :
    (computeTPS total_latency prompt_eval_count eval_count
      = if 0 < total_latency ∧ 0 < prompt_eval_count + eval_count then
          some (((prompt_eval_count : ℚ) + (eval_count : ℚ)) / total_latency)
        else none)
    ∧ ((Ollama.streamFinalMetrics modelName total_latency ttft
          prompt_eval_count eval_count).tokens_per_second
      = if 0 < total_latency ∧ 0 < prompt_eval_count + eval_count then
          some (round2 (((prompt_eval_count : ℚ) + (eval_count : ℚ)) / total_latency))
        else none) := by
  have hcast : (0 : ℚ) < (prompt_eval_count : ℚ) + (eval_count : ℚ)
      ↔ 0 < prompt_eval_count + eval_count := by
    rw [← Nat.cast_add, Nat.cast_pos]
  have hfirst : computeTPS total_latency prompt_eval_count eval_count
      = if 0 < total_latency ∧ 0 < prompt_eval_count + eval_count then
          some (((prompt_eval_count : ℚ) + (eval_count : ℚ)) / total_latency)
        else none := by
    by_cases hL : 0 < total_latency
    · by_cases hT : 0 < prompt_eval_count + eval_count
      · rw [if_pos ⟨hL, hT⟩]
        simp [computeTPS, hL, hcast.mpr hT]
      · rw [if_neg (fun hc => hT hc.2)]
        simp only [computeTPS, if_pos hL]
        rw [if_neg (fun hc => hT (hcast.mp hc))]
    · rw [if_neg (fun hc => hL hc.1)]
      simp [computeTPS, hL]
  refine ⟨hfirst, ?_⟩
  show truthyRound2 (computeTPS total_latency prompt_eval_count eval_count) = _
  rw [hfirst]
  by_cases hG : 0 < total_latency ∧ 0 < prompt_eval_count + eval_count
  · rw [if_pos hG, if_pos hG]
    have hpos : 0 < ((prompt_eval_count : ℚ) + (eval_count : ℚ)) / total_latency :=
      div_pos (hcast.mpr hG.2) hG.1
    simp [truthyRound2, ne_of_gt hpos]
  · rw [if_neg hG, if_neg hG]
    rfl

/-- C6 counterexample: a stream of three non-empty fragments whose done
marker reports eval_count = 7 — present but disagreeing with the local
counter, which reached 3.  The metrics use the backend-reported 7; the
claim requires the local counter 3 whenever the two disagree. -/
theorem c6_counterexample :
    (Ollama.event_gen (fun _ => 0) "m"
        { lines := [Ollama.RawLine.chunk "a", Ollama.RawLine.chunk "b",
                    Ollama.RawLine.chunk "c",
                    Ollama.RawLine.doneMarker (some 10) (some 7)],
          ending := Ollama.TraceEnd.closed }).1.map eventTokenText
      = [some "a", some "b", some "c", none]
    ∧ (Ollama.event_gen (fun _ => 0) "m"
        { lines := [Ollama.RawLine.chunk "a", Ollama.RawLine.chunk "b",
                    Ollama.RawLine.chunk "c",
                    Ollama.RawLine.doneMarker (some 10) (some 7)],
          ending := Ollama.TraceEnd.closed }).1.map eventOutputTokens
      = [none, none, none, some (some 7)]
    ∧ Ollama.nonemptyChunkCount
        [Ollama.RawLine.chunk "a", Ollama.RawLine.chunk "b", Ollama.RawLine.chunk "c"]
      = 3
    ∧ some (7 : ℕ) ≠ some 3 := by
  refine ⟨by decide, by decide, by decide, by decide⟩

/-- C6 amended: at the done marker the output token count used in the
metrics is obj.get with the local counter as mere default — the
backend-reported eval_count whenever it is present, even when it
disagrees with the locally accumulated counter, and the local counter
(the number of non-empty fragments forwarded) only when the backend
field is absent.  The run before the final event is all Token events. -/
theorem c6_output_tokens_amended (clock : ℕ → ℚ) (modelName : String)
    (pre rest : List Ollama.RawLine) (pec ec : Option ℕ)
    (hpre : ∀ l ∈ pre, l.isDone = false) :
    ∃ (toks : List String) (m : PerformanceMetrics),
      (Ollama.event_gen clock modelName
          { lines := pre ++ Ollama.RawLine.doneMarker pec ec :: rest,
            ending := Ollama.TraceEnd.closed }).1
        = toks.map StreamEvent.token ++ [StreamEvent.doneEvent "[DONE]" m]
      ∧ m.output_tokens =
          (let used := ec.getD (Ollama.nonemptyChunkCount pre)
           if 0 < used then some used else none) := by
  obtain ⟨toks, m, hev, hout⟩ :=
    Ollama.event_genLoop_done clock modelName (clock 0) pec ec rest pre
      Ollama.initState hpre
  refine ⟨toks, m, hev, ?_⟩
  rw [hout]
  simp [Ollama.initState]

/-- C6 amended witness: a single fragment followed by a done marker with
no backend counts falls back to the local counter 1. -/
theorem c6_output_tokens_amended_witness :
    ∃ (toks : List String) (m : PerformanceMetrics),
      (Ollama.event_gen (fun _ => 0) "m"
          { lines := [Ollama.RawLine.chunk "a"] ++ Ollama.RawLine.doneMarker none none :: [],
            ending := Ollama.TraceEnd.closed }).1
        = toks.map StreamEvent.token ++ [StreamEvent.doneEvent "[DONE]" m]
      ∧ m.output_tokens =
          (let used := (none : Option ℕ).getD
            (Ollama.nonemptyChunkCount [Ollama.RawLine.chunk "a"])
           if 0 < used then some used else none) := by
  exact c6_output_tokens_amended (fun _ => 0) "m" [Ollama.RawLine.chunk "a"] []
    none none (by decide)

/-- C7: scenario D of the spec.  For any positive wall-clock latency,
the non-streaming chat handler on the backend body
response "Paris", prompt_eval_count 10, eval_count 4,
total_duration 2e9 ns, prompt_eval_duration 5e8 ns returns content
"Paris", output_tokens 4, and output_tokens_per_second computed over the
backend-reported 1.5 s generation window: round(4 / 1.5, 2) = 2.67. -/
theorem c7_scenario_d (total_latency : ℚ) (hL : 0 < total_latency) :
    (Ollama.chatResponse "m"
        { response := some "Paris", prompt_eval_count := some 10,
          eval_count := some 4, total_duration := some 2000000000,
          prompt_eval_duration := some 500000000 } total_latency).content
      = "Paris"
    ∧ (Ollama.chatResponse "m"
        { response := some "Paris", prompt_eval_count := some 10,
          eval_count := some 4, total_duration := some 2000000000,
          prompt_eval_duration := some 500000000 } total_latency).metrics.output_tokens
      = some 4
    ∧ (Ollama.chatResponse "m"
        { response := some "Paris", prompt_eval_count := some 10,
          eval_count := some 4, total_duration := some 2000000000,
          prompt_eval_duration := some 500000000 }
        total_latency).metrics.output_tokens_per_second
      = some (267 / 100) := by
  refine ⟨rfl, rfl, ?_⟩
  simp only [Ollama.chatResponse]
  rw [if_pos hL]
  norm_num
  simp only [truthyRound2]
  rw [if_neg (by norm_num : ¬ ((8:ℚ)/3 = 0))]
  simp only [round2]
  rw [show (((8:ℚ)/3) * 100) = 800/3 by norm_num]
  rw [round_eq]
  rw [show ((800:ℚ)/3 + 1/2) = 1603/6 by norm_num]
  rw [show ⌊(1603:ℚ)/6⌋ = 267 by
    rw [Int.floor_eq_iff]
    norm_num]
  norm_num

/-- C7 witness: the scenario at wall-clock latency 1 s. -/
theorem c7_scenario_d_witness :
    (0 : ℚ) < 1
    ∧ (Ollama.chatResponse "m"
        { response := some "Paris", prompt_eval_count := some 10,
          eval_count := some 4, total_duration := some 2000000000,
          prompt_eval_duration := some 500000000 } 1).content
      = "Paris"
    ∧ (Ollama.chatResponse "m"
        { response := some "Paris", prompt_eval_count := some 10,
          eval_count := some 4, total_duration := some 2000000000,
          prompt_eval_duration := some 500000000 } 1).metrics.output_tokens
      = some 4
    ∧ (Ollama.chatResponse "m"
        { response := some "Paris", prompt_eval_count := some 10,
          eval_count := some 4, total_duration := some 2000000000,
          prompt_eval_duration := some 500000000 } 1).metrics.output_tokens_per_second
      = some (267 / 100) := by
  have h := c7_scenario_d 1 (by norm_num)
  exact ⟨by norm_num, h.1, h.2.1, h.2.2⟩

/-- C8 counterexample: a valid request setting max_tokens = 5.  The
non-streaming handler's payload options carry only the temperature —
no num_predict (maximum-new-tokens) key is ever added on this path, so
the backend sees no generation limit although the request set one. -/
theorem c8_counterexample :
    ollamaRequestValid
        { model := "m", messages := [{ role := Role.user, content := "Hi" }],
          temperature := 1, max_tokens := some 5 }
      = true
    ∧ ({ model := "m", messages := [{ role := Role.user, content := "Hi" }],
         temperature := 1, max_tokens := some 5 } : ChatRequest).max_tokens
      = some 5
    ∧ (Ollama.chatPayload
        { model := "m", messages := [{ role := Role.user, content := "Hi" }],
          temperature := 1, max_tokens := some 5 }).options.num_predict
      = none := by
  refine ⟨by decide, rfl, rfl⟩

/-- C8 amended: a valid non-streaming request issues exactly one backend
call whose payload carries the built prompt and the request temperature
with stream false, but never a maximum-new-tokens limit (num_predict is
absent even when max_tokens is set); only the streaming payload carries
num_predict = max_tokens when max_tokens is set (and non-zero). -/
theorem c8_payload_amended (r : ChatRequest) (h : ollamaRequestValid r = true) :
    Ollama.chatCalls r = [Ollama.chatPayload r]
    ∧ (Ollama.chatPayload r).prompt = Ollama.build_prompt r.messages
    ∧ (Ollama.chatPayload r).options.temperature = r.temperature
    ∧ (Ollama.chatPayload r).options.num_predict = none
    ∧ (Ollama.chatPayload r).stream = false
    ∧ (∀ n : ℤ, r.max_tokens = some n → n ≠ 0 →
        (Ollama.chatStreamPayload r).options.num_predict = some n) := by
  refine ⟨by simp [Ollama.chatCalls, h], rfl, rfl, rfl, rfl, ?_⟩
  intro n hn hne
  simp [Ollama.chatStreamPayload, hn, hne]

/-- C8 amended witness: the valid request with max_tokens = 5. -/
theorem c8_payload_amended_witness :
    Ollama.chatCalls
        { model := "m", messages := [{ role := Role.user, content := "Hi" }],
          temperature := 1, max_tokens := some 5 }
      = [Ollama.chatPayload
          { model := "m", messages := [{ role := Role.user, content := "Hi" }],
            temperature := 1, max_tokens := some 5 }]
    ∧ (Ollama.chatStreamPayload
        { model := "m", messages := [{ role := Role.user, content := "Hi" }],
          temperature := 1, max_tokens := some 5 }).options.num_predict
      = some 5 := by
  have h := c8_payload_amended
    { model := "m", messages := [{ role := Role.user, content := "Hi" }],
      temperature := 1, max_tokens := some 5 } (by decide)
  exact ⟨h.1, h.2.2.2.2.2 5 rfl (by decide)⟩

/-- C9 counterexample: on the single user message "Hi" the ONNX GenAI
prompt builder produces "USER: Hi" followed by a newline and the literal
"ASSISTANT:", while the spec's linearization (system preamble, then
"ROLE: content" lines, trimmed, nothing else appended) produces
"USER: Hi" — the builders do not agree across adapters. -/
theorem c9_counterexample :
    Genai.build_prompt [{ role := Role.user, content := "Hi" }]
      = "USER: Hi\nASSISTANT:"
    ∧ specPrompt [{ role := Role.user, content := "Hi" }] = "USER: Hi"
    ∧ ("USER: Hi\nASSISTANT:" : String) ≠ "USER: Hi" := by
  refine ⟨by decide, by decide, by decide⟩

/-- C9 amended: the Ollama and ONNX prompt builders agree exactly with
the spec's linearization for every message sequence; the ONNX GenAI
builder produces the same linearization with the extra suffix composed
of a newline and "ASSISTANT:" appended before the trim. -/
theorem c9_prompt_amended (messages : List ChatMessage) :
    Ollama.build_prompt messages = specPrompt messages
    ∧ Onnx.build_prompt messages = specPrompt messages
    ∧ Genai.build_prompt messages
      = pyStrip (systemJoin messages ++ "\n" ++ historyJoin messages
          ++ "\nASSISTANT:") := by
  exact ⟨rfl, rfl, rfl⟩

/-- C10: an empty backend content fragment is skipped entirely — the
loop continues with the very same state (no Token event, no ttft
recording, no counter increment), and consequently every Token event
any trace ever produces carries a non-empty fragment. -/
theorem c10_empty_fragment_skipped :
    (∀ (clock : ℕ → ℚ) (modelName : String) (startTime : ℚ)
        (rest : List Ollama.RawLine) (s : Ollama.GenState),
      Ollama.event_genLoop clock modelName startTime
          (Ollama.RawLine.chunk "" :: rest) s
        = Ollama.event_genLoop clock modelName startTime rest s)
    ∧ (∀ (clock : ℕ → ℚ) (modelName : String) (tr : Ollama.Trace),
      ((Ollama.event_gen clock modelName tr).1.all (fun e =>
        match e with
        | StreamEvent.token t => !(t = "")
        | _ => true)) = true) := by
  constructor
  · intro clock modelName startTime rest s
    simp [Ollama.event_genLoop]
  · intro clock modelName tr
    have h := Ollama.event_genLoop_all clock modelName (clock 0) tr.lines Ollama.initState
    rw [List.all_eq_true] at h ⊢
    intro e he
    exact Bool.and_elim_left (h e he)
